import Mathlib

set_option maxRecDepth 100000

/-!
Verification of the UKEnergyLive data pipeline
(`src/data_pipeline/fetch_data.py`).

The pipeline is a linear ETL job: fetch two tables (BMRS FUELINST
generation per fuel type, NESO embedded generation), derive a timestamp
from settlement date and period, pivot the fuel data to wide form, inner
join on timestamp, add five aggregate columns, round to 2 decimal places
and write one CSV.

Shallow embedding conventions:
* times are integers counted in minutes (a settlement date is the minute
  count of its midnight, UTC);
* numeric cell values are rationals `ℚ` (the Python floats);
* a wide (pivoted / merged) table is a list of rows, each row a timestamp
  plus an association list of column name to value, mirroring a pandas
  `DataFrame` with a `timestamp` column;
* fallible steps return `Except Err`; the network responses consumed by
  the fetchers are passed in as explicit arguments.
-/

/-- Errors the pipeline can raise.  `keyError c` models a Python
`KeyError` on column `c`; `fetchError` models `requests` failures /
`raise_for_status` (network behaviour is outside the embedded code, the
pipeline model takes fetch results as `Except` arguments). -/
inductive Err where
  | keyError : String → Err
  | fetchError : Err
deriving DecidableEq, Repr

instance {ε α : Type} [DecidableEq ε] [DecidableEq α] :
    DecidableEq (Except ε α) := fun a b =>
  match a, b with
  | .error e, .error f =>
    if h : e = f then .isTrue (by rw [h]) else
      .isFalse (fun he => h (Except.error.inj he))
  | .ok x, .ok y =>
    if h : x = y then .isTrue (by rw [h]) else
      .isFalse (fun he => h (Except.ok.inj he))
  | .error _, .ok _ => .isFalse (fun he => Except.noConfusion he)
  | .ok _, .error _ => .isFalse (fun he => Except.noConfusion he)

/-- A row of a wide (pivoted or merged) DataFrame: the `timestamp` column
plus the remaining numeric columns as an association list. -/
structure Row where
  ts : ℤ
  cells : List (String × ℚ)
deriving DecidableEq, Repr

/-- A wide DataFrame. -/
abbrev Table := List Row

/-- First-match lookup in an association list of columns
(`df["c"]` read access on one row). -/
def lookupCells : List (String × ℚ) → String → Option ℚ
  | [], _ => none
  | p :: rest, c => if p.1 = c then some p.2 else lookupCells rest c

/-- Replace the value of column `c` if present, else append the new
column at the end — `df["c"] = v` semantics on one row. -/
def setCells : List (String × ℚ) → String → ℚ → List (String × ℚ)
  | [], c, v => [(c, v)]
  | p :: rest, c, v => if p.1 = c then (c, v) :: rest else p :: setCells rest c v

/-- Column read on a row. -/
def getCol (r : Row) (c : String) : Option ℚ :=
  lookupCells r.cells c

/-- Column write on a row. -/
def setCol (r : Row) (c : String) (v : ℚ) : Row :=
  { r with cells := setCells r.cells c v }

/-- Value of a column, defaulting to 0 when absent (used only to state
theorems compactly; the embedded code itself never defaults). -/
def colv (r : Row) (c : String) : ℚ :=
  (getCol r c).getD 0

/-- Nearest integer to a rational, computed as `⌊q + 1/2⌋` on the
numerator/denominator representation. -/
def nearestInt (q : ℚ) : ℤ :=
  (q + 1 / 2).num.fdiv ((q + 1 / 2).den : ℤ)

/-- Round to 2 decimal places, exact on rationals
(`DataFrame.round(2)` on one value; tie-breaking differs from numpy only
at exact midpoints, which binary floats cannot represent anyway). -/
def round2 (x : ℚ) : ℚ :=
  ((nearestInt (x * 100) : ℤ) : ℚ) / 100

/-- `round(2)` applied to every numeric cell of a row; the timestamp
column is not numeric and is untouched. -/
def roundRow (r : Row) : Row :=
  { r with cells := r.cells.map (fun p => (p.1, round2 p.2)) }

/-- `DataFrame.round(2)` on a whole table. -/
def roundTable (t : Table) : Table :=
  t.map roundRow

/-! ### Source rows and fetchers -/

/-- One record of the BMRS FUELINST JSON response: fields
`settlementDate` (midnight, minutes), `settlementPeriod`, `fuelType`,
`generation`. -/
structure RawFuel where
  settlementDate : ℤ
  settlementPeriod : ℤ
  fuelType : String
  generation : ℚ
deriving DecidableEq, Repr

/-- One record of the NESO demand CSV after column selection:
`SETTLEMENT_DATE`, `SETTLEMENT_PERIOD`, `EMBEDDED_WIND_GENERATION`,
`EMBEDDED_SOLAR_GENERATION`. -/
structure RawDemand where
  settlementDate : ℤ
  settlementPeriod : ℤ
  embeddedWind : ℚ
  embeddedSolar : ℚ
deriving DecidableEq, Repr

/-- A BMRS row after `fetch_bmrs_fuelinst` added the `timestamp`
column. -/
structure FuelRow where
  settlementDate : ℤ
  settlementPeriod : ℤ
  fuelType : String
  generation : ℚ
  timestamp : ℤ
deriving DecidableEq, Repr

/-- A NESO row after `fetch_neso_demand` added the `timestamp`
column. -/
structure DemandRow where
  settlementDate : ℤ
  settlementPeriod : ℤ
  embeddedWind : ℚ
  embeddedSolar : ℚ
  timestamp : ℤ
deriving DecidableEq, Repr

/-- `fetch_bmrs_fuelinst(hours)` given the current time `now` (minutes)
and the decoded JSON response `resp`.  When the response is the empty
list, `pd.DataFrame(data)` has no columns at all, so the subsequent
`df["settlementDate"]` raises `KeyError`; otherwise the timestamp column
is derived as `settlementDate + (settlementPeriod - 1) * 30` minutes and
rows are re-filtered to the window `[now - hours·60, now]` (both ends
inclusive, matching `>=` / `<=`). -/
def fetch_bmrs_fuelinst (hours now : ℤ) (resp : List RawFuel) :
    Except Err (List FuelRow) :=
  let start := now - hours * 60
  if resp.isEmpty then
    .error (.keyError "settlementDate")
  else
    .ok (((resp.map (fun r =>
      ({ settlementDate := r.settlementDate
         settlementPeriod := r.settlementPeriod
         fuelType := r.fuelType
         generation := r.generation
         timestamp := r.settlementDate + (r.settlementPeriod - 1) * 30 } :
        FuelRow)))).filter
        (fun r => decide (start ≤ r.timestamp) && decide (r.timestamp ≤ now)))

/-- `fetch_neso_demand(hours)` given the current time `now` (minutes) and
the parsed CSV rows `csv`.  `pd.read_csv` of the fixed-schema CSV always
yields the selected columns (even with zero data rows), so no `KeyError`
can occur; the timestamp and window filter are as in the BMRS fetcher. -/
def fetch_neso_demand (hours now : ℤ) (csv : List RawDemand) :
    List DemandRow :=
  let start := now - hours * 60
  ((csv.map (fun r =>
    ({ settlementDate := r.settlementDate
       settlementPeriod := r.settlementPeriod
       embeddedWind := r.embeddedWind
       embeddedSolar := r.embeddedSolar
       timestamp := r.settlementDate + (r.settlementPeriod - 1) * 30 } :
      DemandRow)))).filter
      (fun d => decide (start ≤ d.timestamp) && decide (d.timestamp ≤ now))

/-! ### Pivot (inside `merge_datasets`) -/

/-- A long-form BMRS record as consumed by the `pivot_table` call: the
`timestamp`, `fuelType` and `generation` columns. -/
structure LongRow where
  ts : ℤ
  fuel : String
  gen : ℚ
deriving DecidableEq, Repr

/-- Projection of a fetched BMRS row to the three columns `pivot_table`
uses. -/
def toLong (r : FuelRow) : LongRow :=
  { ts := r.timestamp, fuel := r.fuelType, gen := r.generation }

/-- Distinct values of a list, in ascending order — `pivot_table` sorts
the index and the columns ascending. -/
def sortDedup {α : Type} [LinearOrder α] [DecidableEq α] (l : List α) :
    List α :=
  (l.dedup).insertionSort (· ≤ ·)

/-- The generation values of the group of rows at timestamp `t` with
fuel type `f`. -/
def groupGens (rows : List LongRow) (t : ℤ) (f : String) : List ℚ :=
  (rows.filter (fun r => decide (r.ts = t) && decide (r.fuel = f))).map
    LongRow.gen

/-- One cell of the pivot table: the mean (`aggfunc="mean"`) of the
group's generation values, or 0 (`fill_value=0`) when the group is
empty. -/
def pivotCell (rows : List LongRow) (t : ℤ) (f : String) : ℚ :=
  let g := groupGens rows t f
  if g.length = 0 then 0 else g.sum / (g.length : ℚ)

/-- The sorted distinct timestamps of the input — the pivot index. -/
def pivotIndex (rows : List LongRow) : List ℤ :=
  sortDedup (rows.map LongRow.ts)

/-- The sorted distinct fuel types of the input — the pivot columns. -/
def pivotColumns (rows : List LongRow) : List String :=
  sortDedup (rows.map LongRow.fuel)

/-- `bmrs_fuelinst_df.pivot_table(index="timestamp", columns="fuelType",
values="generation", aggfunc="mean", fill_value=0).reset_index()`:
one row per distinct timestamp, one column per observed fuel type, cell
= group mean, 0 when the group is empty. -/
def pivot (rows : List LongRow) : Table :=
  (pivotIndex rows).map (fun t =>
    { ts := t
      cells := (pivotColumns rows).map (fun f => (f, pivotCell rows t f)) })

/-- Long form of a wide table: one record per (row, column) pair.  Used
to feed a pivoted table through `pivot` again. -/
def unpivot (t : Table) : List LongRow :=
  t.flatMap (fun p => p.cells.map (fun q => { ts := p.ts, fuel := q.1, gen := q.2 }))

/-- The columns the NESO side contributes to the merged table, in the
order they sit in `neso_df` after column selection (`SETTLEMENT_DATE` is
a datetime column in pandas; it is carried here as an integer-valued
rational so that `round(2)`, which only touches numeric columns, is also
the identity on it in the model). -/
def demandCells (d : DemandRow) : List (String × ℚ) :=
  [("SETTLEMENT_DATE", (d.settlementDate : ℚ)),
   ("SETTLEMENT_PERIOD", (d.settlementPeriod : ℚ)),
   ("EMBEDDED_WIND_GENERATION", d.embeddedWind),
   ("EMBEDDED_SOLAR_GENERATION", d.embeddedSolar)]

/-- `merge_datasets`: pivot the BMRS data, then
`pd.merge(pivoted, neso_df, on="timestamp", how="inner")` — every
pivoted row is paired with every demand row carrying the same timestamp;
rows whose timestamp occurs on only one side are dropped. -/
def merge_datasets (fuel : List FuelRow) (demand : List DemandRow) : Table :=
  (pivot (fuel.map toLong)).flatMap (fun p =>
    (demand.filter (fun d => decide (d.timestamp = p.ts))).map (fun d =>
      { ts := p.ts, cells := p.cells ++ demandCells d }))

/-! ### Aggregation (`process_merged`) -/

/-- `merged["c"]` read access: `KeyError` when the column is absent. -/
def need (r : Row) (c : String) : Except Err ℚ :=
  match getCol r c with
  | some v => .ok v
  | none => .error (.keyError c)

/-- The column assignments of `process_merged` on one row, in source
order; each total is read back from the row it was just written to,
exactly as the code reads `merged["TOTAL_WIND"]` etc. -/
def addTotalsRow (r0 : Row) : Except Err Row := do
  let wind ← need r0 "WIND"
  let ew ← need r0 "EMBEDDED_WIND_GENERATION"
  let r1 := setCol r0 "TOTAL_WIND" (wind + ew)
  let ccgt ← need r1 "CCGT"
  let ocgt ← need r1 "OCGT"
  let r2 := setCol r1 "TOTAL_GAS" (ccgt + ocgt)
  let tw ← need r2 "TOTAL_WIND"
  let es ← need r2 "EMBEDDED_SOLAR_GENERATION"
  let np ← need r2 "NPSHYD"
  let r3 := setCol r2 "TOTAL_RENEWABLE" (tw + es + np)
  let tg ← need r3 "TOTAL_GAS"
  let coal ← need r3 "COAL"
  let oil ← need r3 "OIL"
  let r4 := setCol r3 "TOTAL_FOSSIL_FUELS" (tg + coal + oil)
  let tr ← need r4 "TOTAL_RENEWABLE"
  let bio ← need r4 "BIOMASS"
  let nuc ← need r4 "NUCLEAR"
  pure (setCol r4 "TOTAL_LOW_CARBON" (tr + bio + nuc))

/-- The five column assignments of `process_merged` over the whole
table.  pandas assigns column-wise; row-wise application agrees with it
on every non-empty table whose rows share their columns.  On a zero-row
frame pandas still checks that each read column exists, which a bare row
list cannot express, so pipeline-level statements about zero-row merges
are scoped to inputs in which every fuel-type column `process_merged`
reads was observed (see the coverage hypothesis of the empty-join
claim). -/
def addTotals : Table → Except Err Table
  | [] => .ok []
  | r :: rs =>
    match addTotalsRow r, addTotals rs with
    | .ok r2, .ok rs2 => .ok (r2 :: rs2)
    | .error e, _ => .error e
    | .ok _, .error e => .error e

/-- `process_merged(merged)`.  The first component of the result is the
final state of the caller's `merged` object (the function mutates its
argument in place when adding the five totals), the second is the value
`return merged.round(2)` hands back. -/
def process_merged (m : Table) : Except Err (Table × Table) :=
  match addTotals m with
  | .error e => .error e
  | .ok m2 => .ok (m2, roundTable m2)

/-! ### Pipeline (`fetch_pipeline`) -/

/-- `fetch_pipeline()`, with the two fetch results passed in as oracles
(they depend on the network) and the previously existing output file as
`prev`.  The second component of the result is the state of the output
file after the run: `to_csv` is the very last statement, so the file is
(over)written only when every earlier step succeeded, and an uncaught
exception in any step leaves `prev` in place. -/
def fetch_pipeline (fA : Except Err (List FuelRow))
    (fB : Except Err (List DemandRow)) (prev : Option Table) :
    Except Err Table × Option Table :=
  match fA with
  | .error e => (.error e, prev)
  | .ok fuel =>
    match fB with
    | .error e => (.error e, prev)
    | .ok demand =>
      match process_merged (merge_datasets fuel demand) with
      | .error e => (.error e, prev)
      | .ok res => (.ok res.2, some res.2)

/-- The row produced by the five assignments of `process_merged`, given
the values of the ten source columns. -/
def totalsRow (r : Row) (w ew cc oc es np co oi bi nu : ℚ) : Row :=
  setCol (setCol (setCol (setCol (setCol r
    "TOTAL_WIND" (w + ew))
    "TOTAL_GAS" (cc + oc))
    "TOTAL_RENEWABLE" (w + ew + es + np))
    "TOTAL_FOSSIL_FUELS" (cc + oc + co + oi))
    "TOTAL_LOW_CARBON" (w + ew + es + np + bi + nu)

/-- The ten columns `process_merged` reads. -/
def requiredCols : List String :=
  ["WIND", "CCGT", "OCGT", "COAL", "OIL", "NPSHYD", "BIOMASS", "NUCLEAR",
   "EMBEDDED_WIND_GENERATION", "EMBEDDED_SOLAR_GENERATION"]

/-- The five columns `process_merged` writes. -/
def totalCols : List String :=
  ["TOTAL_WIND", "TOTAL_GAS", "TOTAL_RENEWABLE", "TOTAL_FOSSIL_FUELS",
   "TOTAL_LOW_CARBON"]

/-- The eight fuel-type columns `process_merged` reads; they exist in
the merged frame exactly when the corresponding fuel type occurs in the
fetched BMRS rows (the demand-side columns always exist). -/
def fuelCols : List String :=
  ["WIND", "CCGT", "OCGT", "COAL", "OIL", "NPSHYD", "BIOMASS", "NUCLEAR"]

/-- The long form of a full wide grid: every timestamp of `T` paired
with every column of `F`, valued by `v`.  `unpivot` of any pivot output
has this shape. -/
def grid (T : List ℤ) (F : List String) (v : ℤ → String → ℚ) :
    List LongRow :=
  T.flatMap (fun t => F.map (fun f => { ts := t, fuel := f, gen := v t f }))

/-! ### Example data -/

/-- The merged row of the end-to-end scenario in the specification. -/
def mergedExample : Table :=
  [{ ts := 0
     cells := [("WIND", 100), ("CCGT", 200), ("OCGT", 50), ("COAL", 10),
       ("OIL", 5), ("NPSHYD", 2), ("BIOMASS", 3), ("NUCLEAR", 400),
       ("EMBEDDED_WIND_GENERATION", 20), ("EMBEDDED_SOLAR_GENERATION", 15)] }]

/-- Fuel rows with timestamps 0, 30, 60 (the spec's T1, T2, T3). -/
def fuelJoinExample : List FuelRow :=
  [⟨0, 1, "WIND", 100, 0⟩, ⟨0, 2, "WIND", 100, 30⟩, ⟨0, 3, "WIND", 100, 60⟩]

/-- Demand rows with timestamps 30, 60, 90 (the spec's T2, T3, T4). -/
def demandJoinExample : List DemandRow :=
  [⟨0, 2, 20, 15, 30⟩, ⟨0, 3, 20, 15, 60⟩, ⟨0, 4, 20, 15, 90⟩]

/-- Fuel rows at timestamp 0 covering all eight fuel types read by
`process_merged`, so the merged frame is column-complete even when the
join is empty. -/
def fuelDisjointFull : List FuelRow :=
  [⟨0, 1, "WIND", 100, 0⟩, ⟨0, 1, "CCGT", 200, 0⟩, ⟨0, 1, "OCGT", 50, 0⟩,
   ⟨0, 1, "COAL", 10, 0⟩, ⟨0, 1, "OIL", 5, 0⟩, ⟨0, 1, "NPSHYD", 2, 0⟩,
   ⟨0, 1, "BIOMASS", 3, 0⟩, ⟨0, 1, "NUCLEAR", 400, 0⟩]

/-- A single demand row at timestamp 30 — no overlap with
`fuelDisjointFull`. -/
def demandDisjoint : List DemandRow := [⟨0, 2, 20, 15, 30⟩]

/-! ### Association-list lemmas -/

theorem lookupCells_setCells_self (l : List (String × ℚ)) (c : String) (v : ℚ) :
    lookupCells (setCells l c v) c = some v := by
  induction l with
  | nil => simp [setCells, lookupCells]
  | cons p rest ih =>
    by_cases h : p.1 = c
    · simp [setCells, h, lookupCells]
    · simp [setCells, h, lookupCells, ih]

theorem lookupCells_setCells_ne (l : List (String × ℚ)) {c c' : String}
    (v : ℚ) (h : c' ≠ c) :
    lookupCells (setCells l c v) c' = lookupCells l c' := by
  have hcc : ¬(c = c') := fun he => h he.symm
  induction l with
  | nil => simp [setCells, lookupCells, hcc]
  | cons p rest ih =>
    by_cases hp : p.1 = c
    · have hp' : ¬(p.1 = c') := by rw [hp]; exact hcc
      simp [setCells, hp, lookupCells, hcc, hp']
    · by_cases hp' : p.1 = c'
      · simp [setCells, hp, lookupCells, hp', h]
      · simp [setCells, hp, lookupCells, hp', ih]

theorem getCol_setCol_self (r : Row) (c : String) (v : ℚ) :
    getCol (setCol r c v) c = some v :=
  lookupCells_setCells_self r.cells c v

theorem getCol_setCol_ne (r : Row) {c c' : String} (v : ℚ) (h : c' ≠ c) :
    getCol (setCol r c v) c' = getCol r c' :=
  lookupCells_setCells_ne r.cells v h

theorem lookupCells_map_self {fs : List String} (v : String → ℚ) {f : String}
    (hf : f ∈ fs) :
    lookupCells (fs.map (fun x => (x, v x))) f = some (v f) := by
  induction fs with
  | nil => cases hf
  | cons a rest ih =>
    by_cases h : a = f
    · subst h; simp [lookupCells]
    · rcases List.mem_cons.mp hf with h' | h'
      · exact absurd h'.symm h
      · simp [lookupCells, h, ih h']

theorem lookupCells_map_of_not_mem {fs : List String} (v : String → ℚ)
    {f : String} (hf : f ∉ fs) :
    lookupCells (fs.map (fun x => (x, v x))) f = none := by
  induction fs with
  | nil => simp [lookupCells]
  | cons a rest ih =>
    have ha : a ≠ f := fun h => hf (h ▸ List.mem_cons_self a rest)
    have hr : f ∉ rest := fun h => hf (List.mem_cons_of_mem a h)
    simp [lookupCells, ha, ih hr]

/-! ### Sorted deduplication lemmas -/

theorem mem_sortDedup {α : Type} [LinearOrder α] [DecidableEq α]
    {l : List α} {a : α} : a ∈ sortDedup l ↔ a ∈ l := by
  unfold sortDedup
  rw [(List.perm_insertionSort (· ≤ ·) l.dedup).mem_iff, List.mem_dedup]

theorem sortDedup_nodup {α : Type} [LinearOrder α] [DecidableEq α]
    (l : List α) : (sortDedup l).Nodup := by
  unfold sortDedup
  exact (List.perm_insertionSort (· ≤ ·) l.dedup).nodup_iff.mpr
    (List.nodup_dedup l)

theorem sortDedup_sorted {α : Type} [LinearOrder α] [DecidableEq α]
    (l : List α) : List.Sorted (· ≤ ·) (sortDedup l) :=
  List.sorted_insertionSort (· ≤ ·) l.dedup

theorem sortDedup_congr {α : Type} [LinearOrder α] [DecidableEq α]
    {l₁ l₂ : List α} (h : ∀ a, a ∈ l₁ ↔ a ∈ l₂) :
    sortDedup l₁ = sortDedup l₂ := by
  have hperm : (sortDedup l₁).Perm (sortDedup l₂) :=
    (List.perm_ext_iff_of_nodup (sortDedup_nodup l₁) (sortDedup_nodup l₂)).mpr
      (fun a => by rw [mem_sortDedup, mem_sortDedup]; exact h a)
  exact List.eq_of_perm_of_sorted hperm (sortDedup_sorted l₁) (sortDedup_sorted l₂)

/-! ### Pivot lemmas -/

theorem pivot_map_ts (rows : List LongRow) :
    (pivot rows).map Row.ts = pivotIndex rows := by
  unfold pivot
  rw [List.map_map]
  exact (List.map_congr_left fun a _ => rfl).trans (List.map_id _)

theorem mem_pivotIndex {rows : List LongRow} {t : ℤ} :
    t ∈ pivotIndex rows ↔ t ∈ rows.map LongRow.ts :=
  mem_sortDedup

theorem mem_pivotColumns {rows : List LongRow} {f : String} :
    f ∈ pivotColumns rows ↔ f ∈ rows.map LongRow.fuel :=
  mem_sortDedup

theorem mem_pivot_iff {rows : List LongRow} {p : Row} :
    p ∈ pivot rows ↔ ∃ t ∈ pivotIndex rows,
      p = { ts := t
            cells := (pivotColumns rows).map (fun f => (f, pivotCell rows t f)) } := by
  simp only [pivot, List.mem_map]
  constructor
  · rintro ⟨t, ht, rfl⟩; exact ⟨t, ht, rfl⟩
  · rintro ⟨t, ht, rfl⟩; exact ⟨t, ht, rfl⟩

theorem ts_of_mem_pivot {rows : List LongRow} {p : Row}
    (hp : p ∈ pivot rows) : p.ts ∈ pivotIndex rows := by
  rcases mem_pivot_iff.mp hp with ⟨t, ht, rfl⟩; exact ht

theorem getCol_of_mem_pivot {rows : List LongRow} {p : Row}
    (hp : p ∈ pivot rows) {f : String} (hf : f ∈ pivotColumns rows) :
    getCol p f = some (pivotCell rows p.ts f) := by
  rcases mem_pivot_iff.mp hp with ⟨t, _, rfl⟩
  exact lookupCells_map_self _ hf

theorem getCol_of_mem_pivot_none {rows : List LongRow} {p : Row}
    (hp : p ∈ pivot rows) {f : String} (hf : f ∉ pivotColumns rows) :
    getCol p f = none := by
  rcases mem_pivot_iff.mp hp with ⟨t, _, rfl⟩
  exact lookupCells_map_of_not_mem _ hf

/-! ### Merge lemmas -/

theorem map_toLong_ts (fuel : List FuelRow) :
    (fuel.map toLong).map LongRow.ts = fuel.map FuelRow.timestamp := by
  simp [List.map_map, Function.comp, toLong]

theorem mem_merge_ts_iff (fuel : List FuelRow) (demand : List DemandRow)
    (t : ℤ) :
    t ∈ (merge_datasets fuel demand).map Row.ts ↔
      (t ∈ fuel.map FuelRow.timestamp ∧ t ∈ demand.map DemandRow.timestamp) := by
  constructor
  · intro h
    rcases List.mem_map.mp h with ⟨row, hrow, hts⟩
    rcases List.mem_flatMap.mp hrow with ⟨p, hp, hrow2⟩
    rcases List.mem_map.mp hrow2 with ⟨d, hd, hrow3⟩
    rcases List.mem_filter.mp hd with ⟨hdmem, hdts⟩
    have hdts' : d.timestamp = p.ts := of_decide_eq_true hdts
    have hpts : p.ts = t := by rw [← hrow3] at hts; exact hts
    constructor
    · have h1 : p.ts ∈ pivotIndex (fuel.map toLong) := ts_of_mem_pivot hp
      have h2 := mem_pivotIndex.mp h1
      rw [map_toLong_ts] at h2
      rwa [hpts] at h2
    · rw [← hpts, ← hdts']
      exact List.mem_map_of_mem DemandRow.timestamp hdmem
  · rintro ⟨hft, hdt⟩
    rcases List.mem_map.mp hdt with ⟨d, hd, hdts⟩
    have h1 : t ∈ pivotIndex (fuel.map toLong) := by
      rw [mem_pivotIndex, map_toLong_ts]; exact hft
    set cellsOf := fun s =>
      (pivotColumns (fuel.map toLong)).map
        (fun f => (f, pivotCell (fuel.map toLong) s f)) with hcells
    have hp : ({ ts := t, cells := cellsOf t } : Row) ∈ pivot (fuel.map toLong) :=
      mem_pivot_iff.mpr ⟨t, h1, rfl⟩
    refine List.mem_map.mpr ⟨{ ts := t, cells := cellsOf t ++ demandCells d }, ?_, rfl⟩
    refine List.mem_flatMap.mpr ⟨{ ts := t, cells := cellsOf t }, hp, ?_⟩
    refine List.mem_map.mpr ⟨d, ?_, rfl⟩
    exact List.mem_filter.mpr ⟨hd, decide_eq_true hdts⟩

/-! ### Aggregation lemmas -/

theorem addTotalsRow_spec (r : Row) (w ew cc oc es np co oi bi nu : ℚ)
    (h1 : getCol r "WIND" = some w)
    (h2 : getCol r "EMBEDDED_WIND_GENERATION" = some ew)
    (h3 : getCol r "CCGT" = some cc)
    (h4 : getCol r "OCGT" = some oc)
    (h5 : getCol r "EMBEDDED_SOLAR_GENERATION" = some es)
    (h6 : getCol r "NPSHYD" = some np)
    (h7 : getCol r "COAL" = some co)
    (h8 : getCol r "OIL" = some oi)
    (h9 : getCol r "BIOMASS" = some bi)
    (h10 : getCol r "NUCLEAR" = some nu) :
    addTotalsRow r = .ok (totalsRow r w ew cc oc es np co oi bi nu) := by
  have g3 : getCol (setCol r "TOTAL_WIND" (w + ew)) "CCGT" = some cc := by
    rw [getCol_setCol_ne _ _ (by decide)]; exact h3
  have g4 : getCol (setCol r "TOTAL_WIND" (w + ew)) "OCGT" = some oc := by
    rw [getCol_setCol_ne _ _ (by decide)]; exact h4
  have gtw : getCol (setCol (setCol r "TOTAL_WIND" (w + ew))
      "TOTAL_GAS" (cc + oc)) "TOTAL_WIND" = some (w + ew) := by
    rw [getCol_setCol_ne _ _ (by decide), getCol_setCol_self]
  have g5 : getCol (setCol (setCol r "TOTAL_WIND" (w + ew))
      "TOTAL_GAS" (cc + oc)) "EMBEDDED_SOLAR_GENERATION" = some es := by
    rw [getCol_setCol_ne _ _ (by decide), getCol_setCol_ne _ _ (by decide)]
    exact h5
  have g6 : getCol (setCol (setCol r "TOTAL_WIND" (w + ew))
      "TOTAL_GAS" (cc + oc)) "NPSHYD" = some np := by
    rw [getCol_setCol_ne _ _ (by decide), getCol_setCol_ne _ _ (by decide)]
    exact h6
  have gtg : getCol (setCol (setCol (setCol r "TOTAL_WIND" (w + ew))
      "TOTAL_GAS" (cc + oc)) "TOTAL_RENEWABLE" (w + ew + es + np))
      "TOTAL_GAS" = some (cc + oc) := by
    rw [getCol_setCol_ne _ _ (by decide), getCol_setCol_self]
  have g7 : getCol (setCol (setCol (setCol r "TOTAL_WIND" (w + ew))
      "TOTAL_GAS" (cc + oc)) "TOTAL_RENEWABLE" (w + ew + es + np))
      "COAL" = some co := by
    rw [getCol_setCol_ne _ _ (by decide), getCol_setCol_ne _ _ (by decide),
      getCol_setCol_ne _ _ (by decide)]
    exact h7
  have g8 : getCol (setCol (setCol (setCol r "TOTAL_WIND" (w + ew))
      "TOTAL_GAS" (cc + oc)) "TOTAL_RENEWABLE" (w + ew + es + np))
      "OIL" = some oi := by
    rw [getCol_setCol_ne _ _ (by decide), getCol_setCol_ne _ _ (by decide),
      getCol_setCol_ne _ _ (by decide)]
    exact h8
  have gtr : getCol (setCol (setCol (setCol (setCol r "TOTAL_WIND" (w + ew))
      "TOTAL_GAS" (cc + oc)) "TOTAL_RENEWABLE" (w + ew + es + np))
      "TOTAL_FOSSIL_FUELS" (cc + oc + co + oi))
      "TOTAL_RENEWABLE" = some (w + ew + es + np) := by
    rw [getCol_setCol_ne _ _ (by decide), getCol_setCol_self]
  have g9 : getCol (setCol (setCol (setCol (setCol r "TOTAL_WIND" (w + ew))
      "TOTAL_GAS" (cc + oc)) "TOTAL_RENEWABLE" (w + ew + es + np))
      "TOTAL_FOSSIL_FUELS" (cc + oc + co + oi)) "BIOMASS" = some bi := by
    rw [getCol_setCol_ne _ _ (by decide), getCol_setCol_ne _ _ (by decide),
      getCol_setCol_ne _ _ (by decide), getCol_setCol_ne _ _ (by decide)]
    exact h9
  have g10 : getCol (setCol (setCol (setCol (setCol r "TOTAL_WIND" (w + ew))
      "TOTAL_GAS" (cc + oc)) "TOTAL_RENEWABLE" (w + ew + es + np))
      "TOTAL_FOSSIL_FUELS" (cc + oc + co + oi)) "NUCLEAR" = some nu := by
    rw [getCol_setCol_ne _ _ (by decide), getCol_setCol_ne _ _ (by decide),
      getCol_setCol_ne _ _ (by decide), getCol_setCol_ne _ _ (by decide)]
    exact h10
  simp only [addTotalsRow, need, h1, h2, g3, g4, gtw, g5, g6, gtg, g7, g8,
    gtr, g9, g10, bind, Except.bind, pure, Except.pure, totalsRow]

theorem getCol_eq_some_colv {r : Row} {c : String}
    (h : (getCol r c).isSome = true) : getCol r c = some (colv r c) := by
  cases hg : getCol r c with
  | none => rw [hg] at h; cases h
  | some v => simp [colv, hg]

theorem addTotalsRow_of_required (r : Row)
    (h : ∀ c ∈ requiredCols, (getCol r c).isSome = true) :
    addTotalsRow r = .ok (totalsRow r
      (colv r "WIND") (colv r "EMBEDDED_WIND_GENERATION")
      (colv r "CCGT") (colv r "OCGT")
      (colv r "EMBEDDED_SOLAR_GENERATION") (colv r "NPSHYD")
      (colv r "COAL") (colv r "OIL")
      (colv r "BIOMASS") (colv r "NUCLEAR")) :=
  addTotalsRow_spec r _ _ _ _ _ _ _ _ _ _
    (getCol_eq_some_colv (h "WIND" (by decide)))
    (getCol_eq_some_colv (h "EMBEDDED_WIND_GENERATION" (by decide)))
    (getCol_eq_some_colv (h "CCGT" (by decide)))
    (getCol_eq_some_colv (h "OCGT" (by decide)))
    (getCol_eq_some_colv (h "EMBEDDED_SOLAR_GENERATION" (by decide)))
    (getCol_eq_some_colv (h "NPSHYD" (by decide)))
    (getCol_eq_some_colv (h "COAL" (by decide)))
    (getCol_eq_some_colv (h "OIL" (by decide)))
    (getCol_eq_some_colv (h "BIOMASS" (by decide)))
    (getCol_eq_some_colv (h "NUCLEAR" (by decide)))

theorem getCol_totalsRow_tw (r : Row) (w ew cc oc es np co oi bi nu : ℚ) :
    getCol (totalsRow r w ew cc oc es np co oi bi nu) "TOTAL_WIND" =
      some (w + ew) := by
  unfold totalsRow
  rw [getCol_setCol_ne _ _ (by decide), getCol_setCol_ne _ _ (by decide),
    getCol_setCol_ne _ _ (by decide), getCol_setCol_ne _ _ (by decide),
    getCol_setCol_self]

theorem getCol_totalsRow_tg (r : Row) (w ew cc oc es np co oi bi nu : ℚ) :
    getCol (totalsRow r w ew cc oc es np co oi bi nu) "TOTAL_GAS" =
      some (cc + oc) := by
  unfold totalsRow
  rw [getCol_setCol_ne _ _ (by decide), getCol_setCol_ne _ _ (by decide),
    getCol_setCol_ne _ _ (by decide), getCol_setCol_self]

theorem getCol_totalsRow_tr (r : Row) (w ew cc oc es np co oi bi nu : ℚ) :
    getCol (totalsRow r w ew cc oc es np co oi bi nu) "TOTAL_RENEWABLE" =
      some (w + ew + es + np) := by
  unfold totalsRow
  rw [getCol_setCol_ne _ _ (by decide), getCol_setCol_ne _ _ (by decide),
    getCol_setCol_self]

theorem getCol_totalsRow_tf (r : Row) (w ew cc oc es np co oi bi nu : ℚ) :
    getCol (totalsRow r w ew cc oc es np co oi bi nu) "TOTAL_FOSSIL_FUELS" =
      some (cc + oc + co + oi) := by
  unfold totalsRow
  rw [getCol_setCol_ne _ _ (by decide), getCol_setCol_self]

theorem getCol_totalsRow_tl (r : Row) (w ew cc oc es np co oi bi nu : ℚ) :
    getCol (totalsRow r w ew cc oc es np co oi bi nu) "TOTAL_LOW_CARBON" =
      some (w + ew + es + np + bi + nu) := by
  unfold totalsRow
  rw [getCol_setCol_self]

theorem getCol_totalsRow_of_not_total (r : Row)
    (w ew cc oc es np co oi bi nu : ℚ) {c : String} (hc : c ∉ totalCols) :
    getCol (totalsRow r w ew cc oc es np co oi bi nu) c = getCol r c := by
  have h1 : c ≠ "TOTAL_WIND" := fun h => hc (by rw [h]; decide)
  have h2 : c ≠ "TOTAL_GAS" := fun h => hc (by rw [h]; decide)
  have h3 : c ≠ "TOTAL_RENEWABLE" := fun h => hc (by rw [h]; decide)
  have h4 : c ≠ "TOTAL_FOSSIL_FUELS" := fun h => hc (by rw [h]; decide)
  have h5 : c ≠ "TOTAL_LOW_CARBON" := fun h => hc (by rw [h]; decide)
  unfold totalsRow
  rw [getCol_setCol_ne _ _ h5, getCol_setCol_ne _ _ h4, getCol_setCol_ne _ _ h3,
    getCol_setCol_ne _ _ h2, getCol_setCol_ne _ _ h1]

theorem addTotals_ok {Q : Row → Row → Prop} :
    ∀ m : Table, (∀ r ∈ m, ∃ r2, addTotalsRow r = .ok r2 ∧ Q r r2) →
    ∃ m2, addTotals m = .ok m2 ∧ List.Forall₂ Q m m2 := by
  intro m h
  induction m with
  | nil => exact ⟨[], rfl, List.Forall₂.nil⟩
  | cons r rs ih =>
    obtain ⟨r2, hr2, hq⟩ := h r (List.mem_cons_self r rs)
    obtain ⟨rs2, hrs2, hqs⟩ := ih (fun x hx => h x (List.mem_cons_of_mem r hx))
    exact ⟨r2 :: rs2, by simp [addTotals, hr2, hrs2], List.Forall₂.cons hq hqs⟩

/-! ### Fetcher lemmas -/

theorem fetch_bmrs_timestamp {hours now : ℤ} {resp : List RawFuel}
    {out : List FuelRow} (h : fetch_bmrs_fuelinst hours now resp = .ok out) :
    ∀ r ∈ out,
      r.timestamp = r.settlementDate + (r.settlementPeriod - 1) * 30 := by
  intro r hr
  unfold fetch_bmrs_fuelinst at h
  by_cases he : resp.isEmpty
  · simp [he] at h
  · simp only [he, Bool.false_eq_true, if_false, Except.ok.injEq] at h
    rw [← h] at hr
    rcases List.mem_filter.mp hr with ⟨hm, _⟩
    rcases List.mem_map.mp hm with ⟨raw, _, rfl⟩
    rfl

theorem fetch_neso_timestamp {hours now : ℤ} {csv : List RawDemand} :
    ∀ d ∈ fetch_neso_demand hours now csv,
      d.timestamp = d.settlementDate + (d.settlementPeriod - 1) * 30 := by
  intro d hd
  unfold fetch_neso_demand at hd
  rcases List.mem_filter.mp hd with ⟨hm, _⟩
  rcases List.mem_map.mp hm with ⟨raw, _, rfl⟩
  rfl

theorem fetch_neso_window {hours now : ℤ} {csv : List RawDemand} :
    ∀ d ∈ fetch_neso_demand hours now csv,
      now - hours * 60 ≤ d.timestamp ∧ d.timestamp ≤ now := by
  intro d hd
  unfold fetch_neso_demand at hd
  rcases List.mem_filter.mp hd with ⟨_, hw⟩
  simp only [Bool.and_eq_true, decide_eq_true_eq] at hw
  exact hw

/-! ### Re-pivoting lemmas -/

theorem unpivot_pivot (rows : List LongRow) :
    unpivot (pivot rows) =
      grid (pivotIndex rows) (pivotColumns rows) (pivotCell rows) := by
  unfold unpivot pivot grid
  generalize pivotIndex rows = T
  induction T with
  | nil => rfl
  | cons a T' ih =>
    rw [List.map_cons, List.flatMap_cons, List.flatMap_cons, ih,
      List.map_map]
    rfl

theorem mem_grid {T : List ℤ} {F : List String} {v : ℤ → String → ℚ}
    {x : LongRow} :
    x ∈ grid T F v ↔ ∃ t ∈ T, ∃ f ∈ F, x = { ts := t, fuel := f, gen := v t f } := by
  unfold grid
  constructor
  · intro hx
    rcases List.mem_flatMap.mp hx with ⟨t, ht, hin⟩
    rcases List.mem_map.mp hin with ⟨f, hf, rfl⟩
    exact ⟨t, ht, f, hf, rfl⟩
  · rintro ⟨t, ht, f, hf, rfl⟩
    exact List.mem_flatMap.mpr ⟨t, ht, List.mem_map.mpr ⟨f, hf, rfl⟩⟩

theorem mem_map_ts_grid {T : List ℤ} {F : List String} {v : ℤ → String → ℚ}
    {a : ℤ} :
    a ∈ (grid T F v).map LongRow.ts ↔ (a ∈ T ∧ F ≠ []) := by
  constructor
  · intro h
    rcases List.mem_map.mp h with ⟨lr, hlr, hts⟩
    rcases mem_grid.mp hlr with ⟨t, ht, f, hf, rfl⟩
    exact ⟨hts ▸ ht, List.ne_nil_of_mem hf⟩
  · rintro ⟨ha, hF⟩
    obtain ⟨f, hf⟩ := List.exists_mem_of_ne_nil F hF
    exact List.mem_map.mpr
      ⟨{ ts := a, fuel := f, gen := v a f }, mem_grid.mpr ⟨a, ha, f, hf, rfl⟩, rfl⟩

theorem mem_map_fuel_grid {T : List ℤ} {F : List String} {v : ℤ → String → ℚ}
    {b : String} :
    b ∈ (grid T F v).map LongRow.fuel ↔ (b ∈ F ∧ T ≠ []) := by
  constructor
  · intro h
    rcases List.mem_map.mp h with ⟨lr, hlr, hb⟩
    rcases mem_grid.mp hlr with ⟨t, ht, f, hf, rfl⟩
    exact ⟨hb ▸ hf, List.ne_nil_of_mem ht⟩
  · rintro ⟨hb, hT⟩
    obtain ⟨t, ht⟩ := List.exists_mem_of_ne_nil T hT
    exact List.mem_map.mpr
      ⟨{ ts := t, fuel := b, gen := v t b }, mem_grid.mpr ⟨t, ht, b, hb, rfl⟩, rfl⟩

theorem filter_inner_ne {F : List String} {v : ℤ → String → ℚ}
    {a t : ℤ} {f : String} (ha : a ≠ t) :
    (F.map (fun f' => ({ ts := a, fuel := f', gen := v a f' } : LongRow))).filter
      (fun r => decide (r.ts = t) && decide (r.fuel = f)) = [] := by
  rw [List.filter_eq_nil_iff]
  intro x hx
  rcases List.mem_map.mp hx with ⟨f', _, rfl⟩
  simp [ha]

theorem filter_inner_singleton {F : List String} {v : ℤ → String → ℚ}
    {t : ℤ} {f : String} (hF : F.Nodup) (hf : f ∈ F) :
    (F.map (fun f' => ({ ts := t, fuel := f', gen := v t f' } : LongRow))).filter
      (fun r => decide (r.ts = t) && decide (r.fuel = f)) =
      [{ ts := t, fuel := f, gen := v t f }] := by
  induction F with
  | nil => cases hf
  | cons b F' ih =>
    rw [List.map_cons, List.filter_cons]
    by_cases hbf : b = f
    · subst hbf
      have hb' : b ∉ F' := (List.nodup_cons.mp hF).1
      have hrest : (F'.map (fun f' =>
          ({ ts := t, fuel := f', gen := v t f' } : LongRow))).filter
          (fun r => decide (r.ts = t) && decide (r.fuel = b)) = [] := by
        rw [List.filter_eq_nil_iff]
        intro x hx
        rcases List.mem_map.mp hx with ⟨f', hf', rfl⟩
        have : f' ≠ b := fun he => hb' (he ▸ hf')
        simp [this]
      simp [hrest]
    · have hf' : f ∈ F' := (List.mem_cons.mp hf).resolve_left
        (fun h => hbf h.symm)
      have hcond : (decide (t = t) && decide (b = f)) = false := by
        simp [hbf]
      rw [hcond]
      exact ih (List.nodup_cons.mp hF).2 hf'

theorem filter_grid_not_mem {T : List ℤ} {F : List String}
    {v : ℤ → String → ℚ} {t : ℤ} {f : String} (hT : t ∉ T) :
    (grid T F v).filter
      (fun r => decide (r.ts = t) && decide (r.fuel = f)) = [] := by
  rw [List.filter_eq_nil_iff]
  intro x hx
  rcases mem_grid.mp hx with ⟨t', ht', f', hf', rfl⟩
  have : t' ≠ t := fun h => hT (h ▸ ht')
  simp [this]

theorem filter_grid_singleton {T : List ℤ} {F : List String}
    {v : ℤ → String → ℚ} {t : ℤ} {f : String}
    (hT : T.Nodup) (hF : F.Nodup) (ht : t ∈ T) (hf : f ∈ F) :
    (grid T F v).filter
      (fun r => decide (r.ts = t) && decide (r.fuel = f)) =
      [{ ts := t, fuel := f, gen := v t f }] := by
  induction T with
  | nil => cases ht
  | cons a T' ih =>
    have hgrid : grid (a :: T') F v =
        (F.map (fun f' => ({ ts := a, fuel := f', gen := v a f' } : LongRow))) ++
          grid T' F v := by
      unfold grid; rw [List.flatMap_cons]
    rw [hgrid, List.filter_append]
    by_cases hat : a = t
    · subst hat
      have hT' : a ∉ T' := (List.nodup_cons.mp hT).1
      rw [filter_inner_singleton hF hf, filter_grid_not_mem hT',
        List.append_nil]
    · have ht' : t ∈ T' := (List.mem_cons.mp ht).resolve_left
        (fun h => hat h.symm)
      rw [filter_inner_ne hat, List.nil_append]
      exact ih (List.nodup_cons.mp hT).2 ht'

theorem pivotCell_grid {T : List ℤ} {F : List String} {v : ℤ → String → ℚ}
    {t : ℤ} {f : String} (hT : T.Nodup) (hF : F.Nodup)
    (ht : t ∈ T) (hf : f ∈ F) :
    pivotCell (grid T F v) t f = v t f := by
  unfold pivotCell groupGens
  rw [filter_grid_singleton hT hF ht hf]
  simp

/-! ### Claims -/

/-- C1: for every merged table containing the ten source columns,
`process_merged` produces on every row TOTAL_WIND = WIND +
EMBEDDED_WIND_GENERATION, TOTAL_GAS = CCGT + OCGT, TOTAL_RENEWABLE =
TOTAL_WIND + EMBEDDED_SOLAR_GENERATION + NPSHYD, TOTAL_FOSSIL_FUELS =
TOTAL_GAS + COAL + OIL, TOTAL_LOW_CARBON = TOTAL_RENEWABLE + BIOMASS +
NUCLEAR (computed before the final rounding, which the returned table
then applies to every value). -/
theorem claim_C1_aggregate_formulas (m : Table)
    (h : ∀ r ∈ m, ∀ c ∈ requiredCols, (getCol r c).isSome = true) :
    ∃ m2, addTotals m = .ok m2 ∧
      process_merged m = .ok (m2, roundTable m2) ∧
      List.Forall₂ (fun r r2 =>
        getCol r2 "TOTAL_WIND" =
          some (colv r "WIND" + colv r "EMBEDDED_WIND_GENERATION") ∧
        getCol r2 "TOTAL_GAS" = some (colv r "CCGT" + colv r "OCGT") ∧
        getCol r2 "TOTAL_RENEWABLE" =
          some (colv r "WIND" + colv r "EMBEDDED_WIND_GENERATION" +
            colv r "EMBEDDED_SOLAR_GENERATION" + colv r "NPSHYD") ∧
        getCol r2 "TOTAL_FOSSIL_FUELS" =
          some (colv r "CCGT" + colv r "OCGT" + colv r "COAL" +
            colv r "OIL") ∧
        getCol r2 "TOTAL_LOW_CARBON" =
          some (colv r "WIND" + colv r "EMBEDDED_WIND_GENERATION" +
            colv r "EMBEDDED_SOLAR_GENERATION" + colv r "NPSHYD" +
            colv r "BIOMASS" + colv r "NUCLEAR")) m m2 := by
  obtain ⟨m2, hm2, hq⟩ := addTotals_ok
    (Q := fun r r2 =>
      getCol r2 "TOTAL_WIND" =
        some (colv r "WIND" + colv r "EMBEDDED_WIND_GENERATION") ∧
      getCol r2 "TOTAL_GAS" = some (colv r "CCGT" + colv r "OCGT") ∧
      getCol r2 "TOTAL_RENEWABLE" =
        some (colv r "WIND" + colv r "EMBEDDED_WIND_GENERATION" +
          colv r "EMBEDDED_SOLAR_GENERATION" + colv r "NPSHYD") ∧
      getCol r2 "TOTAL_FOSSIL_FUELS" =
        some (colv r "CCGT" + colv r "OCGT" + colv r "COAL" +
          colv r "OIL") ∧
      getCol r2 "TOTAL_LOW_CARBON" =
        some (colv r "WIND" + colv r "EMBEDDED_WIND_GENERATION" +
          colv r "EMBEDDED_SOLAR_GENERATION" + colv r "NPSHYD" +
          colv r "BIOMASS" + colv r "NUCLEAR"))
    m (fun r hr =>
    ⟨_, addTotalsRow_of_required r (h r hr),
      getCol_totalsRow_tw r _ _ _ _ _ _ _ _ _ _,
      getCol_totalsRow_tg r _ _ _ _ _ _ _ _ _ _,
      getCol_totalsRow_tr r _ _ _ _ _ _ _ _ _ _,
      getCol_totalsRow_tf r _ _ _ _ _ _ _ _ _ _,
      getCol_totalsRow_tl r _ _ _ _ _ _ _ _ _ _⟩)
  exact ⟨m2, hm2, by simp [process_merged, hm2], hq⟩

/-- Witness for C1: the end-to-end scenario row WIND=100, CCGT=200,
OCGT=50, COAL=10, OIL=5, NPSHYD=2, BIOMASS=3, NUCLEAR=400,
EMBEDDED_WIND_GENERATION=20, EMBEDDED_SOLAR_GENERATION=15 yields
TOTAL_WIND=120, TOTAL_GAS=250, TOTAL_RENEWABLE=137,
TOTAL_FOSSIL_FUELS=265, TOTAL_LOW_CARBON=540. -/
theorem claim_C1_witness :
    (∃ m2, addTotals mergedExample = .ok m2 ∧
      process_merged mergedExample = .ok (m2, roundTable m2) ∧
      List.Forall₂ (fun r r2 =>
        getCol r2 "TOTAL_WIND" =
          some (colv r "WIND" + colv r "EMBEDDED_WIND_GENERATION") ∧
        getCol r2 "TOTAL_GAS" = some (colv r "CCGT" + colv r "OCGT") ∧
        getCol r2 "TOTAL_RENEWABLE" =
          some (colv r "WIND" + colv r "EMBEDDED_WIND_GENERATION" +
            colv r "EMBEDDED_SOLAR_GENERATION" + colv r "NPSHYD") ∧
        getCol r2 "TOTAL_FOSSIL_FUELS" =
          some (colv r "CCGT" + colv r "OCGT" + colv r "COAL" +
            colv r "OIL") ∧
        getCol r2 "TOTAL_LOW_CARBON" =
          some (colv r "WIND" + colv r "EMBEDDED_WIND_GENERATION" +
            colv r "EMBEDDED_SOLAR_GENERATION" + colv r "NPSHYD" +
            colv r "BIOMASS" + colv r "NUCLEAR")) mergedExample m2) ∧
    process_merged mergedExample = .ok
      ([{ ts := 0
          cells := [("WIND", 100), ("CCGT", 200), ("OCGT", 50), ("COAL", 10),
            ("OIL", 5), ("NPSHYD", 2), ("BIOMASS", 3), ("NUCLEAR", 400),
            ("EMBEDDED_WIND_GENERATION", 20),
            ("EMBEDDED_SOLAR_GENERATION", 15),
            ("TOTAL_WIND", 120), ("TOTAL_GAS", 250), ("TOTAL_RENEWABLE", 137),
            ("TOTAL_FOSSIL_FUELS", 265), ("TOTAL_LOW_CARBON", 540)] }],
       [{ ts := 0
          cells := [("WIND", 100), ("CCGT", 200), ("OCGT", 50), ("COAL", 10),
            ("OIL", 5), ("NPSHYD", 2), ("BIOMASS", 3), ("NUCLEAR", 400),
            ("EMBEDDED_WIND_GENERATION", 20),
            ("EMBEDDED_SOLAR_GENERATION", 15),
            ("TOTAL_WIND", 120), ("TOTAL_GAS", 250), ("TOTAL_RENEWABLE", 137),
            ("TOTAL_FOSSIL_FUELS", 265), ("TOTAL_LOW_CARBON", 540)] }]) :=
  ⟨claim_C1_aggregate_formulas mergedExample (by decide),
   by with_unfolding_all decide⟩

/-- C2: every row a fetcher returns carries
timestamp = settlement date + (period − 1) × 30 minutes, for both
`fetch_bmrs_fuelinst` and `fetch_neso_demand`, in particular for every
settlement period between 1 and 48. -/
theorem claim_C2_timestamp_formula (hours now : ℤ) (resp : List RawFuel)
    (csv : List RawDemand) (out : List FuelRow)
    (hout : fetch_bmrs_fuelinst hours now resp = .ok out) :
    (∀ r ∈ out, 1 ≤ r.settlementPeriod → r.settlementPeriod ≤ 48 →
      r.timestamp = r.settlementDate + (r.settlementPeriod - 1) * 30) ∧
    (∀ d ∈ fetch_neso_demand hours now csv,
      1 ≤ d.settlementPeriod → d.settlementPeriod ≤ 48 →
      d.timestamp = d.settlementDate + (d.settlementPeriod - 1) * 30) :=
  ⟨fun r hr _ _ => fetch_bmrs_timestamp hout r hr,
   fun d hd _ _ => fetch_neso_timestamp d hd⟩

/-- Witness for C2: a BMRS row (date 60, period 2) and a NESO row (date
60, period 2) both get timestamp 60 + (2 − 1) × 30 = 90. -/
theorem claim_C2_witness :
    (⟨60, 2, "WIND", 100, 90⟩ : FuelRow).timestamp =
      60 + (2 - 1) * 30 ∧
    (⟨60, 2, 20, 15, 90⟩ : DemandRow).timestamp = 60 + (2 - 1) * 30 := by
  constructor
  · exact (claim_C2_timestamp_formula 24 1500 [⟨60, 2, "WIND", 100⟩]
      [⟨60, 2, 20, 15⟩] [⟨60, 2, "WIND", 100, 90⟩]
      (by with_unfolding_all decide)).1
      ⟨60, 2, "WIND", 100, 90⟩ (by with_unfolding_all decide)
      (by decide) (by decide)
  · exact (claim_C2_timestamp_formula 24 1500 [⟨60, 2, "WIND", 100⟩]
      [⟨60, 2, 20, 15⟩] [⟨60, 2, "WIND", 100, 90⟩]
      (by with_unfolding_all decide)).2
      ⟨60, 2, 20, 15, 90⟩ (by with_unfolding_all decide)
      (by decide) (by decide)

/-- C3: the pivot step produces exactly one row per distinct input
timestamp; each output row has exactly the observed fuel types as
columns; a cell whose (timestamp, fuel type) group is empty is 0, and a
cell whose group is non-empty is the arithmetic mean of the group's
generation values. -/
theorem claim_C3_pivot_mean_fill (rows : List LongRow) :
    ((pivot rows).map Row.ts).Nodup ∧
    (∀ t, t ∈ (pivot rows).map Row.ts ↔ t ∈ rows.map LongRow.ts) ∧
    (∀ p ∈ pivot rows,
      (∀ f, (getCol p f).isSome = true ↔ f ∈ rows.map LongRow.fuel) ∧
      (∀ f, f ∈ rows.map LongRow.fuel →
        (groupGens rows p.ts f = [] → getCol p f = some 0) ∧
        (groupGens rows p.ts f ≠ [] →
          getCol p f = some ((groupGens rows p.ts f).sum /
            ((groupGens rows p.ts f).length : ℚ))))) := by
  refine ⟨?_, ?_, ?_⟩
  · rw [pivot_map_ts]; exact sortDedup_nodup _
  · intro t; rw [pivot_map_ts]; exact mem_pivotIndex
  · intro p hp
    constructor
    · intro f
      constructor
      · intro hs
        by_contra hf
        rw [getCol_of_mem_pivot_none hp
          (fun hmem => hf (mem_pivotColumns.mp hmem))] at hs
        cases hs
      · intro hmem
        rw [getCol_of_mem_pivot hp (mem_pivotColumns.mpr hmem)]
        rfl
    · intro f hmem
      have hcol := getCol_of_mem_pivot hp (mem_pivotColumns.mpr hmem)
      constructor
      · intro hempty
        rw [hcol]
        simp [pivotCell, hempty]
      · intro hne
        have hlen : (groupGens rows p.ts f).length ≠ 0 :=
          fun h => hne (List.length_eq_zero.mp h)
        rw [hcol]
        simp [pivotCell, hlen]

/-- Witness for C3: in rows with WIND at timestamps 0 and 30 but OIL
only at 0, the pivoted row for timestamp 30 carries OIL = 0 rather than
a missing cell. -/
theorem claim_C3_witness :
    getCol { ts := 30, cells := [("OIL", 0), ("WIND", 110)] } "OIL" =
      some 0 :=
  (((claim_C3_pivot_mean_fill
      [⟨0, "WIND", 100⟩, ⟨30, "WIND", 110⟩, ⟨0, "OIL", 5⟩]).2.2
    { ts := 30, cells := [("OIL", 0), ("WIND", 110)] }
    (by with_unfolding_all decide)).2
    "OIL" (by decide)).1 (by with_unfolding_all decide)

/-- C4: `merge_datasets` is an inner join on exact timestamp equality —
a timestamp appears in the merged output exactly when it appears both in
the fuel input and in the demand input; in particular inputs with
timestamps {0, 30, 60} and {30, 60, 90} merge to exactly {30, 60}. -/
theorem claim_C4_inner_join (fuel : List FuelRow) (demand : List DemandRow) :
    (∀ t, t ∈ (merge_datasets fuel demand).map Row.ts ↔
      (t ∈ fuel.map FuelRow.timestamp ∧ t ∈ demand.map DemandRow.timestamp)) ∧
    (merge_datasets fuelJoinExample demandJoinExample).map Row.ts =
      [30, 60] :=
  ⟨mem_merge_ts_iff fuel demand, by with_unfolding_all decide⟩

/-- C5: every numeric value in the table returned by `process_merged` is
an integer multiple of 1/100 — at most 2 decimal digits — because
`round(2)` is the final operation. -/
theorem claim_C5_rounding (m : Table) (res : Table × Table)
    (h : process_merged m = .ok res) :
    ∀ r ∈ res.2, ∀ p ∈ r.cells, ∃ k : ℤ, p.2 = (k : ℚ) / 100 := by
  unfold process_merged at h
  cases ha : addTotals m with
  | error e => rw [ha] at h; cases h
  | ok m2 =>
    rw [ha] at h
    cases h
    intro r hr p hp
    rcases List.mem_map.mp hr with ⟨r0, _, rfl⟩
    simp only [roundRow] at hp
    rcases List.mem_map.mp hp with ⟨q, _, rfl⟩
    exact ⟨nearestInt (q.2 * 100), rfl⟩

/-- Witness for C5: in the rounded output of the end-to-end scenario the
WIND cell 100 is an integer multiple of 1/100. -/
theorem claim_C5_witness : ∃ k : ℤ, (100 : ℚ) = (k : ℚ) / 100 :=
  claim_C5_rounding mergedExample
    ([{ ts := 0
        cells := [("WIND", 100), ("CCGT", 200), ("OCGT", 50), ("COAL", 10),
          ("OIL", 5), ("NPSHYD", 2), ("BIOMASS", 3), ("NUCLEAR", 400),
          ("EMBEDDED_WIND_GENERATION", 20),
          ("EMBEDDED_SOLAR_GENERATION", 15),
          ("TOTAL_WIND", 120), ("TOTAL_GAS", 250), ("TOTAL_RENEWABLE", 137),
          ("TOTAL_FOSSIL_FUELS", 265), ("TOTAL_LOW_CARBON", 540)] }],
     [{ ts := 0
        cells := [("WIND", 100), ("CCGT", 200), ("OCGT", 50), ("COAL", 10),
          ("OIL", 5), ("NPSHYD", 2), ("BIOMASS", 3), ("NUCLEAR", 400),
          ("EMBEDDED_WIND_GENERATION", 20),
          ("EMBEDDED_SOLAR_GENERATION", 15),
          ("TOTAL_WIND", 120), ("TOTAL_GAS", 250), ("TOTAL_RENEWABLE", 137),
          ("TOTAL_FOSSIL_FUELS", 265), ("TOTAL_LOW_CARBON", 540)] }])
    (by with_unfolding_all decide)
    { ts := 0
      cells := [("WIND", 100), ("CCGT", 200), ("OCGT", 50), ("COAL", 10),
        ("OIL", 5), ("NPSHYD", 2), ("BIOMASS", 3), ("NUCLEAR", 400),
        ("EMBEDDED_WIND_GENERATION", 20),
        ("EMBEDDED_SOLAR_GENERATION", 15),
        ("TOTAL_WIND", 120), ("TOTAL_GAS", 250), ("TOTAL_RENEWABLE", 137),
        ("TOTAL_FOSSIL_FUELS", 265), ("TOTAL_LOW_CARBON", 540)] }
    (by with_unfolding_all decide)
    ("WIND", 100) (by with_unfolding_all decide)

/-- C6: the pipeline writes the output file only as its very last step —
if any step fails, the result is an error and the output file keeps its
previous content; when the run succeeds the file holds exactly the
processed table, so no partial output is ever written. -/
theorem claim_C6_atomicity (fA : Except Err (List FuelRow))
    (fB : Except Err (List DemandRow)) (prev : Option Table) :
    (∀ e, (fetch_pipeline fA fB prev).1 = .error e →
      (fetch_pipeline fA fB prev).2 = prev) ∧
    (∀ out, (fetch_pipeline fA fB prev).1 = .ok out →
      (fetch_pipeline fA fB prev).2 = some out) := by
  rcases fA with eA | fuel
  · exact ⟨fun e h => rfl, fun out h => by simp [fetch_pipeline] at h⟩
  rcases fB with eB | demand
  · exact ⟨fun e h => rfl, fun out h => by simp [fetch_pipeline] at h⟩
  rcases hpm : process_merged (merge_datasets fuel demand) with eP | res
  · refine ⟨fun e h => ?_, fun out h => ?_⟩
    · simp [fetch_pipeline, hpm]
    · simp [fetch_pipeline, hpm] at h
  · refine ⟨fun e h => ?_, fun out h => ?_⟩
    · simp [fetch_pipeline, hpm] at h
    · simp only [fetch_pipeline, hpm, Except.ok.injEq] at h ⊢
      rw [h]

/-- Witness for C6: a failing BMRS fetch leaves the previous output file
untouched. -/
theorem claim_C6_witness :
    (fetch_pipeline (.error .fetchError) (.ok demandDisjoint)
      (some [{ ts := 0, cells := [] }])).2 =
      some [{ ts := 0, cells := [] }] :=
  (claim_C6_atomicity (.error .fetchError) (.ok demandDisjoint)
    (some [{ ts := 0, cells := [] }])).1 .fetchError rfl

/-- C7 counterexample: fuel rows at timestamp 0 covering all eight fuel
types, a demand row only at timestamp 30 — both sources non-empty, the
inner join empty, the merged frame column-complete — yet the pipeline
does not fail: it returns success and (over)writes the output file with
a zero-row table.  (The code defines no `EmptyJoinError` at all; with
every read column present, `process_merged` succeeds on the zero-row
frame.) -/
theorem claim_C7_counterexample :
    (∀ c ∈ fuelCols, c ∈ fuelDisjointFull.map FuelRow.fuelType) ∧
    fuelDisjointFull ≠ [] ∧ demandDisjoint ≠ [] ∧
    merge_datasets fuelDisjointFull demandDisjoint = [] ∧
    fetch_pipeline (.ok fuelDisjointFull) (.ok demandDisjoint) none =
      (.ok [], some []) := by
  with_unfolding_all decide

/-- C7 as amended: when the inner join of two non-empty fetch results is
empty and every fuel-type column `process_merged` reads was observed in
the BMRS rows (so the zero-row merged frame carries all the columns the
code reads), the pipeline raises no error — in particular no
`EmptyJoinError`, which does not exist in the code — and proceeds to
write an output file containing zero data rows.  (When a fuel-type
column is missing, the code instead raises a `KeyError` on that column,
still not an `EmptyJoinError`; that branch lies outside this row-list
model, which carries no zero-row schema.) -/
theorem claim_C7_empty_join_writes (fuel : List FuelRow)
    (demand : List DemandRow) (prev : Option Table)
    (_hobs : ∀ c ∈ fuelCols, c ∈ fuel.map FuelRow.fuelType)
    (_hd : demand ≠ [])
    (hm : merge_datasets fuel demand = []) :
    fetch_pipeline (.ok fuel) (.ok demand) prev = (.ok [], some []) := by
  have hpm : process_merged (merge_datasets fuel demand) = .ok ([], []) := by
    rw [hm]; rfl
  simp [fetch_pipeline, hpm]

/-- Witness for C7 as amended: the column-complete disjoint example
overwrites a previously existing output file with an empty table. -/
theorem claim_C7_witness :
    fetch_pipeline (.ok fuelDisjointFull) (.ok demandDisjoint)
      (some [{ ts := 5, cells := [] }]) = (.ok [], some []) :=
  claim_C7_empty_join_writes fuelDisjointFull demandDisjoint
    (some [{ ts := 5, cells := [] }])
    (by with_unfolding_all decide) (by with_unfolding_all decide)
    (by with_unfolding_all decide)

/-- C8 counterexample: `fetch_bmrs_fuelinst` with `hours = 0` raises a
`KeyError` instead of returning an empty result when the (degenerate)
window produces an empty remote response: `pd.DataFrame([])` has no
columns, so `df["settlementDate"]` fails. -/
theorem claim_C8_counterexample :
    fetch_bmrs_fuelinst 0 0 [] = .error (.keyError "settlementDate") := by
  with_unfolding_all decide

/-- C8 as amended: with `hours = 0`, `fetch_neso_demand` raises no error
and keeps only rows whose timestamp equals the current instant (an empty
result except at an exact period boundary), while `fetch_bmrs_fuelinst`
raises a `KeyError` whenever the remote response is empty. -/
theorem claim_C8_hours_zero (now : ℤ) (csv : List RawDemand) :
    (∀ d ∈ fetch_neso_demand 0 now csv, d.timestamp = now) ∧
    fetch_bmrs_fuelinst 0 now [] = .error (.keyError "settlementDate") := by
  constructor
  · intro d hd
    have hw := fetch_neso_window d hd
    have h1 : now ≤ d.timestamp := by
      have := hw.1
      omega
    exact le_antisymm hw.2 h1
  · rfl

/-- Witness for C8 as amended: a NESO row whose derived timestamp is
exactly the current instant 60 survives the `hours = 0` filter with that
timestamp, and the BMRS fetcher errors. -/
theorem claim_C8_witness :
    (⟨30, 2, 1, 2, 60⟩ : DemandRow).timestamp = 60 ∧
    fetch_bmrs_fuelinst 0 5 [] = .error (.keyError "settlementDate") :=
  ⟨(claim_C8_hours_zero 60 [⟨30, 2, 1, 2⟩]).1 ⟨30, 2, 1, 2, 60⟩
      (by with_unfolding_all decide),
   (claim_C8_hours_zero 5 []).2⟩

/-- C9: the pivot operation is idempotent — re-pivoting the long form of
an already-pivoted table returns that table unchanged. -/
theorem claim_C9_pivot_idempotent (rows : List LongRow) :
    pivot (unpivot (pivot rows)) = pivot rows := by
  rcases hrows : rows with _ | ⟨r0, rest⟩
  · rfl
  · rw [← hrows]
    have hr0 : r0 ∈ rows := hrows ▸ List.mem_cons_self r0 rest
    have hTne : pivotIndex rows ≠ [] :=
      List.ne_nil_of_mem
        (mem_pivotIndex.mpr (List.mem_map_of_mem LongRow.ts hr0))
    have hFne : pivotColumns rows ≠ [] :=
      List.ne_nil_of_mem
        (mem_pivotColumns.mpr (List.mem_map_of_mem LongRow.fuel hr0))
    have hTn : (pivotIndex rows).Nodup := sortDedup_nodup _
    have hFn : (pivotColumns rows).Nodup := sortDedup_nodup _
    rw [unpivot_pivot]
    have hidx : pivotIndex
        (grid (pivotIndex rows) (pivotColumns rows) (pivotCell rows)) =
        pivotIndex rows := by
      refine sortDedup_congr (fun a => ?_)
      rw [mem_map_ts_grid]
      constructor
      · rintro ⟨h1, _⟩; exact mem_pivotIndex.mp h1
      · intro h; exact ⟨mem_pivotIndex.mpr h, hFne⟩
    have hcols : pivotColumns
        (grid (pivotIndex rows) (pivotColumns rows) (pivotCell rows)) =
        pivotColumns rows := by
      refine sortDedup_congr (fun b => ?_)
      rw [mem_map_fuel_grid]
      constructor
      · rintro ⟨h1, _⟩; exact mem_pivotColumns.mp h1
      · intro h; exact ⟨mem_pivotColumns.mpr h, hTne⟩
    unfold pivot
    rw [hidx, hcols]
    refine List.map_congr_left (fun t ht => ?_)
    refine congrArg (fun cs => ({ ts := t, cells := cs } : Row)) ?_
    refine List.map_congr_left (fun f hf => ?_)
    rw [pivotCell_grid hTn hFn ht hf]

/-- C10: `process_merged` mutates its argument in place — after the call
the caller's table carries the five (unrounded) total columns while all
pre-existing columns keep their values, and only the returned table is
rounded. -/
theorem claim_C10_in_place_mutation (m : Table)
    (hfresh : ∀ r ∈ m, ∀ c ∈ totalCols, getCol r c = none)
    (hcols : ∀ r ∈ m, ∀ c ∈ requiredCols, (getCol r c).isSome = true) :
    ∃ m2, addTotals m = .ok m2 ∧
      process_merged m = .ok (m2, roundTable m2) ∧
      List.Forall₂ (fun r r2 =>
        (∀ c v, getCol r c = some v → getCol r2 c = some v) ∧
        getCol r2 "TOTAL_WIND" =
          some (colv r "WIND" + colv r "EMBEDDED_WIND_GENERATION") ∧
        getCol r2 "TOTAL_GAS" = some (colv r "CCGT" + colv r "OCGT") ∧
        getCol r2 "TOTAL_RENEWABLE" =
          some (colv r "WIND" + colv r "EMBEDDED_WIND_GENERATION" +
            colv r "EMBEDDED_SOLAR_GENERATION" + colv r "NPSHYD") ∧
        getCol r2 "TOTAL_FOSSIL_FUELS" =
          some (colv r "CCGT" + colv r "OCGT" + colv r "COAL" +
            colv r "OIL") ∧
        getCol r2 "TOTAL_LOW_CARBON" =
          some (colv r "WIND" + colv r "EMBEDDED_WIND_GENERATION" +
            colv r "EMBEDDED_SOLAR_GENERATION" + colv r "NPSHYD" +
            colv r "BIOMASS" + colv r "NUCLEAR")) m m2 := by
  obtain ⟨m2, hm2, hq⟩ := addTotals_ok
    (Q := fun r r2 =>
      (∀ c v, getCol r c = some v → getCol r2 c = some v) ∧
      getCol r2 "TOTAL_WIND" =
        some (colv r "WIND" + colv r "EMBEDDED_WIND_GENERATION") ∧
      getCol r2 "TOTAL_GAS" = some (colv r "CCGT" + colv r "OCGT") ∧
      getCol r2 "TOTAL_RENEWABLE" =
        some (colv r "WIND" + colv r "EMBEDDED_WIND_GENERATION" +
          colv r "EMBEDDED_SOLAR_GENERATION" + colv r "NPSHYD") ∧
      getCol r2 "TOTAL_FOSSIL_FUELS" =
        some (colv r "CCGT" + colv r "OCGT" + colv r "COAL" +
          colv r "OIL") ∧
      getCol r2 "TOTAL_LOW_CARBON" =
        some (colv r "WIND" + colv r "EMBEDDED_WIND_GENERATION" +
          colv r "EMBEDDED_SOLAR_GENERATION" + colv r "NPSHYD" +
          colv r "BIOMASS" + colv r "NUCLEAR"))
    m (fun r hr =>
      ⟨_, addTotalsRow_of_required r (hcols r hr),
        fun c v hcv => by
          have hcnot : c ∉ totalCols := fun hc => by
            rw [hfresh r hr c hc] at hcv
            cases hcv
          rw [getCol_totalsRow_of_not_total r _ _ _ _ _ _ _ _ _ _ hcnot]
          exact hcv,
        getCol_totalsRow_tw r _ _ _ _ _ _ _ _ _ _,
        getCol_totalsRow_tg r _ _ _ _ _ _ _ _ _ _,
        getCol_totalsRow_tr r _ _ _ _ _ _ _ _ _ _,
        getCol_totalsRow_tf r _ _ _ _ _ _ _ _ _ _,
        getCol_totalsRow_tl r _ _ _ _ _ _ _ _ _ _⟩)
  exact ⟨m2, hm2, by simp [process_merged, hm2], hq⟩

/-- Witness for C10: on the end-to-end scenario row the mutated argument
keeps all ten original columns and gains the five unrounded totals. -/
theorem claim_C10_witness :
    ∃ m2, addTotals mergedExample = .ok m2 ∧
      process_merged mergedExample = .ok (m2, roundTable m2) ∧
      List.Forall₂ (fun r r2 =>
        (∀ c v, getCol r c = some v → getCol r2 c = some v) ∧
        getCol r2 "TOTAL_WIND" =
          some (colv r "WIND" + colv r "EMBEDDED_WIND_GENERATION") ∧
        getCol r2 "TOTAL_GAS" = some (colv r "CCGT" + colv r "OCGT") ∧
        getCol r2 "TOTAL_RENEWABLE" =
          some (colv r "WIND" + colv r "EMBEDDED_WIND_GENERATION" +
            colv r "EMBEDDED_SOLAR_GENERATION" + colv r "NPSHYD") ∧
        getCol r2 "TOTAL_FOSSIL_FUELS" =
          some (colv r "CCGT" + colv r "OCGT" + colv r "COAL" +
            colv r "OIL") ∧
        getCol r2 "TOTAL_LOW_CARBON" =
          some (colv r "WIND" + colv r "EMBEDDED_WIND_GENERATION" +
            colv r "EMBEDDED_SOLAR_GENERATION" + colv r "NPSHYD" +
            colv r "BIOMASS" + colv r "NUCLEAR")) mergedExample m2 :=
  claim_C10_in_place_mutation mergedExample (by decide) (by decide)
